import Mathlib

/-!
Verification of the DORA metrics aggregation engine (`src/dora.py`,
class `DORAMetricsCalculator`) against its natural-language specification.

The Python source is shallowly embedded: timestamps are integer seconds
(timezone-naive provider clock), durations and metric values are rationals,
the Azure DevOps clients are an explicit environment `Env` whose calls either
return data or fail with a `FetchError` (a raised exception), and each method
of the class becomes a Lean function over `Env`.
-/

set_option maxHeartbeats 2000000
set_option maxRecDepth 20000

namespace Dora

/-- Timestamps: seconds on the provider's (naive) clock. -/
abbrev Time := Int

/-- One calendar day, in seconds.  `timedelta(days=1)`. -/
def secondsPerDay : Int := 86400

/-- The calendar day of a timestamp (`datetime.date()` of the provider-local
naive timestamp): floor division by the length of a day. -/
def dayOf (t : Time) : Int := Int.fdiv t secondsPerDay

/-- One CI pipeline execution, as returned by the builds client
(`builds_client.get_builds`). -/
structure BuildRecord where
  id : Nat
  branch : String
  finishTime : Time
  status : String
  result : String
deriving DecidableEq

/-- One code change associated to a build (`builds_client.get_build_changes`).
`timestamp = none` models a change object without a `timestamp` attribute
(`hasattr(change, 'timestamp')` is false). -/
structure ChangeRecord where
  id : Nat
  timestamp : Option Time
deriving DecidableEq

/-- One git repository of a project (`git_client.get_repositories`). -/
structure Repo where
  name : String
  id : Nat
deriving DecidableEq

/-- One work item of the tracking store.  `changedTime` is the value of
System.ChangedDate as indexed by the provider (used by the WIQL filter);
`fetchOk = false` models `get_work_item` raising for this item;
`createdField` / `changedField` model the raw System.CreatedDate /
System.ChangedDate entries of `work_item.fields`: the outer `Option` is
presence of the key, the inner `Option` is `none` when the string is
malformed so that `datetime.strptime` raises, `some t` when it parses to
`t`. -/
structure StoredWorkItem where
  id : Nat
  project : String
  itemType : String
  state : String
  changedTime : Time
  tags : String
  fetchOk : Bool
  createdField : Option (Option Time)
  changedField : Option (Option Time)
deriving DecidableEq

/-- An exception raised by a provider call or while parsing its data. -/
inductive FetchError where
  | unavailable : FetchError
  | malformedTimestamp : FetchError
deriving DecidableEq

/-- The spec's error taxonomy at the assembler boundary: `InvalidArgument`
(bad window input) or an upstream exception. -/
inductive DoraError where
  | invalidArgument : DoraError
  | upstream : FetchError → DoraError
deriving DecidableEq

/-- Lift a provider exception to the assembler's error type. -/
def liftUp {α : Type} : Except FetchError α → Except DoraError α
  | .ok a => .ok a
  | .error e => .error (.upstream e)

/-- The provider environment behind `self.connection.clients`: the project's
build store (whose initial list call may raise), the per-build change fetch,
the repository list per project, the work-item store, and a flag injecting a
failure of the WIQL query call. -/
structure Env where
  builds : Except FetchError (List BuildRecord)
  changesFor : Nat → Except FetchError (List ChangeRecord)
  repositories : String → List Repo
  workItems : List StoredWorkItem
  queryFails : Bool

/-- The four metrics, keyed as in the dictionary built by `get_all_metrics`. -/
structure MetricsReport where
  deployment_frequency : ℚ
  lead_time_for_changes : ℚ
  change_failure_rate : ℚ
  time_to_restore : ℚ
deriving DecidableEq

def statusCompleted : String := "completed"

def resultSucceeded : String := "succeeded"

def resultFailed : String := "failed"

def wiBug : String := "Bug"

def wiClosed : String := "Closed"

/-- The exact branch reference filter `f"refs/heads/{branch_name}"`. -/
def refsHeads (branch_name : String) : String := "refs/heads/" ++ branch_name

/-- `str.lower()`: character-wise lowercasing. -/
def strLower (s : String) : String := String.mk (s.toList.map Char.toLower)

/-- The WIQL `CONTAINS` operator on the System.Tags string: substring test. -/
def strContains (hay needle : String) : Bool := decide (needle.toList <:+: hay.toList)

/-- `numpy.median`: sort, take the middle element (odd length) or the mean of
the two middle elements (even length). -/
def median (xs : List ℚ) : ℚ :=
  let s := List.insertionSort (· ≤ ·) xs
  let n := s.length
  if n % 2 = 1 then s.getD (n / 2) 0
  else (s.getD (n / 2 - 1) 0 + s.getD (n / 2) 0) / 2

/-- Modelled from the spec: the build-list boundary
`listBuilds(project, branchRef, minTime, maxTime, statusFilter, resultFilter?)`
(the Azure SDK call `builds_client.get_builds` is external code) returns the
stored builds whose status, result (when a result filter is given), branch
reference match exactly and whose finish time lies in the half-open window. -/
def build_passes (statusFilter : String) (resultFilter : Option String)
    (branchRef : String) (minTime maxTime : Time) (b : BuildRecord) : Bool :=
  b.status == statusFilter &&
  (match resultFilter with
   | some r => b.result == r
   | none => true) &&
  b.branch == branchRef &&
  decide (minTime ≤ b.finishTime) && decide (b.finishTime < maxTime)

/-- `builds_client.get_builds`: either the initial list call raises, or it
returns the builds passing the requested filters. -/
def get_builds (env : Env) (minTime maxTime : Time) (statusFilter : String)
    (resultFilter : Option String) (branchRef : String) :
    Except FetchError (List BuildRecord) :=
  match env.builds with
  | .ok bs => .ok (bs.filter (build_passes statusFilter resultFilter branchRef minTime maxTime))
  | .error e => .error e

/-- `get_repository_id` (dora.py lines 13-20): scan the project's
repositories and return the id of the first whose name matches
case-insensitively, else `None`. -/
def get_repository_id (env : Env) (project_name repository_name : String) : Option Nat :=
  ((env.repositories project_name).find?
    (fun repo => strLower repo.name == strLower repository_name)).map (fun repo => repo.id)

/-- `pd.Series(deploy_dates).value_counts().mean()`: the counts of each
distinct value, averaged. -/
def value_counts_mean (ds : List Int) : ℚ :=
  ((ds.dedup.map (fun d => ((List.count d ds : ℕ) : ℚ))).sum) / ((ds.dedup.length : ℕ) : ℚ)

/-- `get_deployment_frequency` (dora.py lines 22-40): list the completed,
succeeded builds of the branch in the window, take their finish dates, and
return the mean of the per-date counts, or 0 when there are none. -/
def get_deployment_frequency (env : Env) (project_name repository_name branch_name : String)
    (start_date end_date : Time) : Except FetchError ℚ :=
  match get_builds env start_date end_date statusCompleted (some resultSucceeded)
      (refsHeads branch_name) with
  | .error e => .error e
  | .ok builds =>
    let deploy_dates := builds.map (fun b => dayOf b.finishTime)
    .ok (if deploy_dates.isEmpty then 0 else value_counts_mean deploy_dates)

/-- The lead time of one change against its build's finish time, in hours;
`none` when the change has no `timestamp` attribute (the change is skipped). -/
def change_lead_hours (b : BuildRecord) (c : ChangeRecord) : Option ℚ :=
  match c.timestamp with
  | some commit_time => some (((b.finishTime - commit_time : Int) : ℚ) / 3600)
  | none => none

/-- The inner loop of lines 70-75: the lead hours of the changes carrying a
timestamp, in order. -/
def build_lead_times (b : BuildRecord) (changes : List ChangeRecord) : List ℚ :=
  changes.filterMap (change_lead_hours b)

/-- The build loop of lines 60-78: when the repository id resolved, fetch each
build's changes and append their lead hours; a raising fetch is caught and
that build is skipped (`except ... continue`); when the id is `None` nothing
is gathered. -/
def lead_loop (env : Env) (repo_id : Option Nat) :
    List BuildRecord → List ℚ → List ℚ
  | [], acc => acc
  | b :: rest, acc =>
    match repo_id with
    | some _ =>
      match env.changesFor b.id with
      | .ok changes => lead_loop env repo_id rest (acc ++ build_lead_times b changes)
      | .error _ => lead_loop env repo_id rest acc
    | none => lead_loop env repo_id rest acc

/-- `get_lead_time_for_changes` (dora.py lines 42-80): resolve the repository
id, list the successful builds of the branch in the window, gather the flat
collection of per-change lead hours, and return its median, or 0 when
empty. -/
def get_lead_time_for_changes (env : Env) (project_name repository_name branch_name : String)
    (start_date end_date : Time) : Except FetchError ℚ :=
  let repo_id := get_repository_id env project_name repository_name
  match get_builds env start_date end_date statusCompleted (some resultSucceeded)
      (refsHeads branch_name) with
  | .error e => .error e
  | .ok builds =>
    let lead_times := lead_loop env repo_id builds []
    .ok (if lead_times.isEmpty then 0 else median lead_times)

/-- `get_change_failure_rate` (dora.py lines 82-98): list the completed builds
of the branch in the window (no result filter), and return
`failed / total * 100`, or 0 when there are no builds. -/
def get_change_failure_rate (env : Env) (project_name repository_name branch_name : String)
    (start_date end_date : Time) : Except FetchError ℚ :=
  match get_builds env start_date end_date statusCompleted none (refsHeads branch_name) with
  | .error e => .error e
  | .ok builds =>
    let total_deployments := builds.length
    let failed_deployments := (builds.filter (fun b => b.result == resultFailed)).length
    .ok (if total_deployments > 0
         then ((failed_deployments : ℕ) : ℚ) / ((total_deployments : ℕ) : ℚ) * 100
         else 0)

/-- The WIQL filter of the query on lines 116-126, on one stored work item:
same project, work item type Bug, state Closed, System.ChangedDate between
the two `%Y-%m-%d`-formatted bounds (a calendar-day comparison, inclusive on
both sides), and System.Tags CONTAINS the branch name as a substring. -/
def wiql_matches (project_name branch_name : String) (startDay endDay : Int)
    (w : StoredWorkItem) : Bool :=
  w.project == project_name &&
  w.itemType == wiBug &&
  w.state == wiClosed &&
  decide (startDay ≤ dayOf w.changedTime) &&
  decide (dayOf w.changedTime ≤ endDay) &&
  strContains w.tags branch_name

/-- The stored work items selected by the WIQL query. -/
def matched_incidents (env : Env) (project_name branch_name : String)
    (start_date end_date : Time) : List StoredWorkItem :=
  env.workItems.filter (wiql_matches project_name branch_name (dayOf start_date) (dayOf end_date))

/-- `work_client.query_by_wiql(wiql).work_items` (line 129): either the query
call raises, or it returns references (ids) to the matching work items. -/
def query_by_wiql (env : Env) (project_name branch_name : String)
    (start_date end_date : Time) : Except FetchError (List Nat) :=
  if env.queryFails then .error .unavailable
  else .ok ((matched_incidents env project_name branch_name start_date end_date).map
    (fun w => w.id))

/-- `work_client.get_work_item(id)` (line 137): fetch the stored item by id;
raises when the item is absent or its fetch is failing. -/
def get_work_item (env : Env) (id : Nat) : Except FetchError StoredWorkItem :=
  match env.workItems.find? (fun w => w.id == id) with
  | some w => if w.fetchOk then .ok w else .error .unavailable
  | none => .error .unavailable

/-- `datetime.strptime` on a raw field value: raises on a malformed string. -/
def parse_ts : Option Time → Except FetchError Time
  | some t => .ok t
  | none => .error .malformedTimestamp

/-- One iteration of the loop on lines 136-144: fetch the work item; when both
date fields are present, parse them and append the restoration hours; a field
missing from `work_item.fields` silently skips the item.  Any raise escapes
the loop (there is no per-item handler in the source). -/
def restore_step (env : Env) (acc : List ℚ) (ref : Nat) : Except FetchError (List ℚ) :=
  match get_work_item env ref with
  | .error e => .error e
  | .ok w =>
    match w.createdField, w.changedField with
    | some created_raw, some changed_raw =>
      match parse_ts created_raw with
      | .error e => .error e
      | .ok created_date =>
        match parse_ts changed_raw with
        | .error e => .error e
        | .ok closed_date =>
          .ok (acc ++ [((closed_date - created_date : Int) : ℚ) / 3600])
    | _, _ => .ok acc

/-- The loop on lines 136-144 over all query results; the first raise aborts
the whole loop. -/
def restore_loop (env : Env) : List Nat → List ℚ → Except FetchError (List ℚ)
  | [], acc => .ok acc
  | ref :: rest, acc =>
    match restore_step env acc ref with
    | .ok acc₂ => restore_loop env rest acc₂
    | .error e => .error e

/-- The body of the `try` block of `get_time_to_restore` (lines 102-146):
resolve the repository id (unused), run the WIQL query, return 0 on an empty
result, else gather the restoration hours and return their median, or 0 when
none were gathered. -/
def get_time_to_restore_body (env : Env) (project_name repository_name branch_name : String)
    (start_date end_date : Time) : Except FetchError ℚ :=
  let _repo_id := get_repository_id env project_name repository_name
  match query_by_wiql env project_name branch_name start_date end_date with
  | .error e => .error e
  | .ok query_results =>
    if query_results.isEmpty then .ok 0
    else
      match restore_loop env query_results [] with
      | .error e => .error e
      | .ok restoration_times =>
        .ok (if restoration_times.isEmpty then 0 else median restoration_times)

/-- `get_time_to_restore` (dora.py lines 100-150): the body wrapped in
`try ... except Exception: return 0`. -/
def get_time_to_restore (env : Env) (project_name repository_name branch_name : String)
    (start_date end_date : Time) : ℚ :=
  match get_time_to_restore_body env project_name repository_name branch_name
      start_date end_date with
  | .ok v => v
  | .error _ => 0

/-- The assembler body at an explicit window: the four reducers invoked with
identical arguments; a raise of any of the first three propagates (the dict
construction of lines 157-170 has no handler), while the fourth is total. -/
def get_all_metrics_window (env : Env) (project_name repository_name branch_name : String)
    (start_date end_date : Time) : Except DoraError MetricsReport :=
  match liftUp (get_deployment_frequency env project_name repository_name branch_name
      start_date end_date) with
  | .error e => .error e
  | .ok df =>
    match liftUp (get_lead_time_for_changes env project_name repository_name branch_name
        start_date end_date) with
    | .error e => .error e
    | .ok lt =>
      match liftUp (get_change_failure_rate env project_name repository_name branch_name
          start_date end_date) with
      | .error e => .error e
      | .ok cfr =>
        .ok ⟨df, lt, cfr,
          get_time_to_restore env project_name repository_name branch_name
            start_date end_date⟩

/-- `get_all_metrics` (dora.py lines 152-172): `end_date = datetime.now()`
(injected as `now`, obtained once), `start_date = end_date -
timedelta(days=days_back)` with no validation of `days_back`, then the four
reducers. -/
def get_all_metrics (env : Env) (project_name repository_name branch_name : String)
    (days_back : Int) (now : Time) : Except DoraError MetricsReport :=
  get_all_metrics_window env project_name repository_name branch_name
    (now - days_back * secondsPerDay) now

/-- Modelled from the spec: the variant of the time-to-restore loop in which a
per-item failure "is caught and degrades that single item (skip)" — the
behavior §7 of the spec ascribes to the per-item loop of §4.6, used to
compare the source's actual behavior against the claim. -/
def restore_loop_skip (env : Env) : List Nat → List ℚ → List ℚ
  | [], acc => acc
  | ref :: rest, acc =>
    match restore_step env acc ref with
    | .ok acc₂ => restore_loop_skip env rest acc₂
    | .error _ => restore_loop_skip env rest acc

/-- Modelled from the spec: time to restore with per-item skip semantics (the
remaining items still contribute to the median). -/
def get_time_to_restore_skip (env : Env) (project_name repository_name branch_name : String)
    (start_date end_date : Time) : ℚ :=
  let _repo_id := get_repository_id env project_name repository_name
  match query_by_wiql env project_name branch_name start_date end_date with
  | .error _ => 0
  | .ok query_results =>
    if query_results.isEmpty then 0
    else
      let restoration_times := restore_loop_skip env query_results []
      if restoration_times.isEmpty then 0 else median restoration_times

/-! ## Claim-side (specification) formulations -/

/-- The qualifying builds of §4.3/§4.4: status completed, result succeeded,
exact branch match, finish time in the window. -/
def qualifying_builds (bs : List BuildRecord) (branch_name : String)
    (start_date end_date : Time) : List BuildRecord :=
  bs.filter (build_passes statusCompleted (some resultSucceeded) (refsHeads branch_name)
    start_date end_date)

/-- The builds of §4.5: status completed, exact branch match, finish time in
the window, unfiltered by result. -/
def cfr_builds (bs : List BuildRecord) (branch_name : String)
    (start_date end_date : Time) : List BuildRecord :=
  bs.filter (build_passes statusCompleted none (refsHeads branch_name) start_date end_date)

/-- The calendar day of a build's finish timestamp. -/
def deploy_day (b : BuildRecord) : Int := dayOf b.finishTime

/-- The calendar days having at least one deployment. -/
def active_days (q : List BuildRecord) : List Int := (q.map deploy_day).dedup

/-- How many qualifying builds finished on day `d`. -/
def per_day_count (q : List BuildRecord) (d : Int) : ℕ :=
  q.countP (fun b => deploy_day b == d)

/-- The spec's deployment frequency: the mean of per-day counts taken only
over calendar days having at least one deployment. -/
def spec_mean_per_active_day (q : List BuildRecord) : ℚ :=
  (((active_days q).map (fun d => ((per_day_count q d : ℕ) : ℚ))).sum) /
    (((active_days q).length : ℕ) : ℚ)

/-- The flat collection of §4.4, as the code gathers it: per-change lead
hours across all qualifying builds, a failed per-build fetch contributing
nothing. -/
def flat_lead_times (env : Env) (q : List BuildRecord) : List ℚ :=
  q.flatMap (fun b =>
    match env.changesFor b.id with
    | .ok changes => build_lead_times b changes
    | .error _ => [])

/-- A work item on which the body of the loop of lines 136-144 raises: its
fetch fails, or both date fields are present and at least one is malformed. -/
def raises_in_loop (w : StoredWorkItem) : Bool :=
  !w.fetchOk ||
  (w.createdField.isSome && w.changedField.isSome &&
    (w.createdField == some none || w.changedField == some none))

/-! ## Concrete instances used by the claim theorems and witnesses -/

def projN : String := "proj"

def repoN : String := "frontend"

def branchN : String := "main"

/-- A successful completed build of the branch. -/
def okBuild (i : Nat) (t : Time) : BuildRecord :=
  ⟨i, refsHeads branchN, t, statusCompleted, resultSucceeded⟩

/-- A completed build of the branch with an explicit result. -/
def doneBuild (i : Nat) (t : Time) (r : String) : BuildRecord :=
  ⟨i, refsHeads branchN, t, statusCompleted, r⟩

/-- An environment holding only a build store. -/
def envOf (bs : List BuildRecord) : Env :=
  ⟨.ok bs, fun _ => .ok [], fun _ => [], [], false⟩

/-- Every provider call succeeds and returns no records. -/
def envEmpty : Env := envOf []

/-- 5 successful builds on 2 distinct days (3 and 2 respectively). -/
def envC3 : Env :=
  envOf [okBuild 1 3600, okBuild 2 7200, okBuild 3 10800, okBuild 4 90000, okBuild 5 93600]

/-- One build with three changes at lead times 1, 2 and 3 hours; the
repository name resolves to id 7. -/
def envC4 : Env :=
  ⟨.ok [okBuild 1 36000],
   fun n => if n = 1 then .ok [⟨10, some 32400⟩, ⟨11, some 28800⟩, ⟨12, some 25200⟩]
            else .ok [],
   fun _ => [⟨repoN, 7⟩], [], false⟩

/-- 10 completed builds of the branch, 3 of them failed. -/
def envC5 : Env :=
  envOf [doneBuild 1 3600 resultFailed, doneBuild 2 7200 resultFailed,
         doneBuild 3 10800 resultFailed, doneBuild 4 14400 resultSucceeded,
         doneBuild 5 18000 resultSucceeded, doneBuild 6 21600 resultSucceeded,
         doneBuild 7 25200 resultSucceeded, doneBuild 8 28800 resultSucceeded,
         doneBuild 9 32400 resultSucceeded, doneBuild 10 36000 resultSucceeded]

/-- The builds list call raises, and so does the incident query call. -/
def envFail : Env :=
  ⟨.error .unavailable, fun _ => .ok [], fun _ => [], [], true⟩

/-- A fully fetchable closed defect of the project, tagged with the branch. -/
def wiOk (i : Nat) (created changed : Time) : StoredWorkItem :=
  ⟨i, projN, wiBug, wiClosed, changed, branchN, true, some (some created), some (some changed)⟩

/-- A matching defect whose `get_work_item` fetch raises. -/
def wiBad (i : Nat) (changed : Time) : StoredWorkItem :=
  ⟨i, projN, wiBug, wiClosed, changed, branchN, false, some (some 0), some (some changed)⟩

/-- One sound incident restored in 5 hours, and one whose per-item fetch
raises. -/
def envC7 : Env :=
  ⟨.ok [], fun _ => .ok [], fun _ => [], [wiOk 1 0 18000, wiBad 2 18000], false⟩

/-- Two builds, the change fetch of build 2 raising; work items as in
`envC7`. -/
def envC7a : Env :=
  ⟨.ok [okBuild 1 36000, okBuild 2 39600],
   fun n => if n = 1 then .ok [⟨10, some 32400⟩] else .error .unavailable,
   fun _ => [⟨repoN, 7⟩], [wiOk 1 0 18000, wiBad 2 18000], false⟩

/-- The incident query call raises; a sound incident is stored. -/
def envQF : Env :=
  ⟨.ok [], fun _ => .ok [], fun _ => [], [wiOk 1 0 18000], true⟩

/-- An incident whose changed time is exactly a window end of 2592000
(midnight of day 30), restored in 5 hours. -/
def wiC8 : StoredWorkItem := wiOk 1 2574000 2592000

/-- An incident changed on day 31, outside even the day-granular window. -/
def wiC8out : StoredWorkItem := wiOk 2 2660400 2678400

/-- The work-item store holding `wiC8` and `wiC8out`. -/
def envC8 : Env :=
  ⟨.ok [], fun _ => .ok [], fun _ => [], [wiC8, wiC8out], false⟩

/-- One build with a single change at lead time 2 hours; the repository
resolves to id 7. -/
def envR : Env :=
  ⟨.ok [okBuild 1 36000], fun n => if n = 1 then .ok [⟨10, some 28800⟩] else .ok [],
   fun _ => [⟨repoN, 7⟩], [], false⟩

/-- `envR` with the repository list emptied, so that repository-id resolution
returns `None`; nothing else differs. -/
def envRn : Env := { envR with repositories := fun _ => [] }

/-! ## General lemmas about the embedding -/

theorem get_builds_ok (env : Env) (bs : List BuildRecord) (s e : Time)
    (st : String) (rf : Option String) (br : String) (h : env.builds = .ok bs) :
    get_builds env s e st rf br = .ok (bs.filter (build_passes st rf br s e)) := by
  simp [get_builds, h]

theorem get_builds_qualifying (env : Env) (bs : List BuildRecord) (bn : String)
    (s e : Time) (h : env.builds = .ok bs) :
    get_builds env s e statusCompleted (some resultSucceeded) (refsHeads bn) =
      .ok (qualifying_builds bs bn s e) := by
  rw [get_builds_ok env bs s e _ _ _ h]
  rfl

theorem get_builds_cfr (env : Env) (bs : List BuildRecord) (bn : String)
    (s e : Time) (h : env.builds = .ok bs) :
    get_builds env s e statusCompleted none (refsHeads bn) = .ok (cfr_builds bs bn s e) := by
  rw [get_builds_ok env bs s e _ _ _ h]
  rfl

theorem get_builds_error (env : Env) (er : FetchError) (s e : Time)
    (st : String) (rf : Option String) (br : String) (h : env.builds = .error er) :
    get_builds env s e st rf br = .error er := by
  simp [get_builds, h]

theorem lead_loop_none (env : Env) (q : List BuildRecord) (acc : List ℚ) :
    lead_loop env none q acc = acc := by
  induction q generalizing acc with
  | nil => rfl
  | cons b rest ih => simp [lead_loop, ih]

theorem lead_loop_some (env : Env) (rid : Nat) (q : List BuildRecord) (acc : List ℚ) :
    lead_loop env (some rid) q acc = acc ++ flat_lead_times env q := by
  induction q generalizing acc with
  | nil => simp [lead_loop, flat_lead_times]
  | cons b rest ih =>
    cases h : env.changesFor b.id with
    | ok changes => simp [lead_loop, h, ih, flat_lead_times, List.append_assoc]
    | error er => simp [lead_loop, h, ih, flat_lead_times]

theorem value_counts_mean_eq (ds : List Int) :
    value_counts_mean ds = ((ds.length : ℕ) : ℚ) / ((ds.dedup.length : ℕ) : ℚ) := by
  unfold value_counts_mean
  congr 1
  rw [show (fun d => ((List.count d ds : ℕ) : ℚ)) =
      (fun (n : ℕ) => (n : ℚ)) ∘ (fun d => List.count d ds) from rfl]
  rw [← List.map_map, ← Nat.cast_list_sum]
  rw [List.sum_map_count_dedup_eq_length]

theorem per_day_count_eq (q : List BuildRecord) (d : Int) :
    List.count d (q.map deploy_day) = per_day_count q d := by
  simp [List.count, per_day_count, List.countP_map]
  rfl

theorem spec_mean_eq (q : List BuildRecord) :
    value_counts_mean (q.map deploy_day) = spec_mean_per_active_day q := by
  unfold value_counts_mean spec_mean_per_active_day active_days
  simp only [← per_day_count_eq]

theorem find?_id_nodup (l : List StoredWorkItem) (w : StoredWorkItem)
    (hnd : (l.map (fun x => x.id)).Nodup) (hw : w ∈ l) :
    l.find? (fun x => x.id == w.id) = some w := by
  induction l with
  | nil => cases hw
  | cons x xs ih =>
    rw [List.map_cons, List.nodup_cons] at hnd
    rcases List.mem_cons.mp hw with rfl | hw₂
    · simp [List.find?]
    · have hx : (x.id == w.id) = false := by
        rw [beq_eq_false_iff_ne]
        intro heq
        exact hnd.1 (heq ▸ List.mem_map_of_mem (fun y => y.id) hw₂)
      rw [List.find?_cons, hx]
      exact ih hnd.2 hw₂

theorem restore_step_error (env : Env) (w : StoredWorkItem)
    (hfind : env.workItems.find? (fun x => x.id == w.id) = some w)
    (hr : raises_in_loop w = true) :
    ∀ acc, ∃ er, restore_step env acc w.id = .error er := by
  intro acc
  unfold raises_in_loop at hr
  cases hf : w.fetchOk with
  | false =>
    have hgw : get_work_item env w.id = .error .unavailable := by
      unfold get_work_item
      rw [hfind]
      simp [hf]
    exact ⟨.unavailable, by unfold restore_step; simp [hgw]⟩
  | true =>
    have hgw : get_work_item env w.id = .ok w := by
      unfold get_work_item
      rw [hfind]
      simp [hf]
    rw [hf] at hr
    simp only [Bool.not_true, Bool.false_or, Bool.and_assoc, Bool.and_eq_true] at hr
    obtain ⟨hc, hch, hor⟩ := hr
    obtain ⟨cr, hcr⟩ := Option.isSome_iff_exists.mp hc
    obtain ⟨ch, hch₂⟩ := Option.isSome_iff_exists.mp hch
    rw [hcr, hch₂] at hor
    simp only [beq_iff_eq, Bool.or_eq_true, Option.some.injEq] at hor
    unfold restore_step
    simp only [hgw, hcr, hch₂]
    rcases hor with rfl | rfl
    · exact ⟨.malformedTimestamp, rfl⟩
    · cases cr with
      | none => exact ⟨.malformedTimestamp, rfl⟩
      | some t => exact ⟨.malformedTimestamp, rfl⟩

theorem restore_loop_error (env : Env) (refs : List Nat) (r : Nat)
    (hmem : r ∈ refs) (hstep : ∀ acc, ∃ er, restore_step env acc r = .error er) :
    ∀ acc, ∃ er, restore_loop env refs acc = .error er := by
  induction refs with
  | nil => cases hmem
  | cons a rest ih =>
    intro acc
    rcases List.mem_cons.mp hmem with rfl | h₂
    · obtain ⟨er, he⟩ := hstep acc
      exact ⟨er, by simp [restore_loop, he]⟩
    · cases hs : restore_step env acc a with
      | error er => exact ⟨er, by simp [restore_loop, hs]⟩
      | ok acc₂ =>
        obtain ⟨er, he⟩ := ih h₂ acc₂
        exact ⟨er, by simp [restore_loop, hs, he]⟩

theorem ttr_zero_of_failure (env : Env) (pn rn bn : String) (s e : Time)
    (h : env.queryFails = true ∨
      ((env.workItems.map (fun w => w.id)).Nodup ∧
        ∃ w ∈ matched_incidents env pn bn s e, raises_in_loop w = true)) :
    get_time_to_restore env pn rn bn s e = 0 := by
  rcases h with hq | ⟨hnd, w, hwm, hr⟩
  · simp [get_time_to_restore, get_time_to_restore_body, query_by_wiql, hq]
  · have hw : w ∈ env.workItems := (List.mem_filter.mp hwm).1
    have hfind := find?_id_nodup env.workItems w hnd hw
    have hstep := restore_step_error env w hfind hr
    have hrefs : w.id ∈ (matched_incidents env pn bn s e).map (fun x => x.id) :=
      List.mem_map_of_mem (fun x => x.id) hwm
    cases hqf : env.queryFails with
    | true => simp [get_time_to_restore, get_time_to_restore_body, query_by_wiql, hqf]
    | false =>
      obtain ⟨er, hloop⟩ := restore_loop_error env _ w.id hrefs hstep []
      have hne : ((matched_incidents env pn bn s e).map (fun x => x.id)).isEmpty = false := by
        rw [List.isEmpty_eq_false_iff_exists_mem]
        exact ⟨w.id, hrefs⟩
      simp [get_time_to_restore, get_time_to_restore_body, query_by_wiql, hqf, hne, hloop]

theorem restore_loop_ignores_repositories (env : Env) (rs : String → List Repo)
    (refs : List Nat) (acc : List ℚ) :
    restore_loop { env with repositories := rs } refs acc = restore_loop env refs acc := by
  induction refs generalizing acc with
  | nil => rfl
  | cons r rest ih =>
    have hs : restore_step { env with repositories := rs } acc r =
        restore_step env acc r := rfl
    simp only [restore_loop, hs]
    cases restore_step env acc r with
    | ok acc₂ => exact ih acc₂
    | error er => rfl

theorem ttr_ignores_repositories (env : Env) (rs : String → List Repo)
    (pn rn bn : String) (s e : Time) :
    get_time_to_restore { env with repositories := rs } pn rn bn s e =
      get_time_to_restore env pn rn bn s e := by
  unfold get_time_to_restore get_time_to_restore_body
  rw [show query_by_wiql { env with repositories := rs } pn bn s e =
      query_by_wiql env pn bn s e from rfl]
  cases hq : query_by_wiql env pn bn s e with
  | error er => rfl
  | ok refs => simp only [restore_loop_ignores_repositories]

theorem df_ok (env : Env) (bs : List BuildRecord) (pn rn bn : String) (s e : Time)
    (h : env.builds = .ok bs) :
    ∃ x, get_deployment_frequency env pn rn bn s e = .ok x := by
  unfold get_deployment_frequency
  rw [get_builds_qualifying env bs bn s e h]
  exact ⟨_, rfl⟩

theorem lt_ok (env : Env) (bs : List BuildRecord) (pn rn bn : String) (s e : Time)
    (h : env.builds = .ok bs) :
    ∃ x, get_lead_time_for_changes env pn rn bn s e = .ok x := by
  unfold get_lead_time_for_changes
  rw [get_builds_qualifying env bs bn s e h]
  exact ⟨_, rfl⟩

theorem cfr_ok (env : Env) (bs : List BuildRecord) (pn rn bn : String) (s e : Time)
    (h : env.builds = .ok bs) :
    ∃ x, get_change_failure_rate env pn rn bn s e = .ok x := by
  unfold get_change_failure_rate
  rw [get_builds_cfr env bs bn s e h]
  exact ⟨_, rfl⟩

theorem df_error (env : Env) (er : FetchError) (pn rn bn : String) (s e : Time)
    (h : env.builds = .error er) :
    get_deployment_frequency env pn rn bn s e = .error er := by
  unfold get_deployment_frequency
  rw [get_builds_error env er s e _ _ _ h]

theorem lt_error (env : Env) (er : FetchError) (pn rn bn : String) (s e : Time)
    (h : env.builds = .error er) :
    get_lead_time_for_changes env pn rn bn s e = .error er := by
  unfold get_lead_time_for_changes
  rw [get_builds_error env er s e _ _ _ h]

theorem cfr_error (env : Env) (er : FetchError) (pn rn bn : String) (s e : Time)
    (h : env.builds = .error er) :
    get_change_failure_rate env pn rn bn s e = .error er := by
  unfold get_change_failure_rate
  rw [get_builds_error env er s e _ _ _ h]

/-! ## The claims -/

/-- Claim C3: for every collection of qualifying builds (status completed,
result succeeded, branch match, finish time in window), deployment frequency
equals the mean of per-day counts taken only over calendar days having at
least one deployment (equivalently, the number of qualifying builds divided
by the number of active days), and equals 0 when no qualifying builds exist;
5 builds spread 3 and 2 over two distinct days yield 5/2. -/
theorem claim_C3 (env : Env) (bs : List BuildRecord) (pn rn bn : String) (s e : Time)
    (h : env.builds = .ok bs) :
    (qualifying_builds bs bn s e = [] → get_deployment_frequency env pn rn bn s e = .ok 0) ∧
    get_deployment_frequency env pn rn bn s e =
      .ok (if qualifying_builds bs bn s e = [] then 0
           else spec_mean_per_active_day (qualifying_builds bs bn s e)) ∧
    (qualifying_builds bs bn s e ≠ [] →
      get_deployment_frequency env pn rn bn s e =
        .ok ((((qualifying_builds bs bn s e).length : ℕ) : ℚ) /
             (((active_days (qualifying_builds bs bn s e)).length : ℕ) : ℚ))) ∧
    get_deployment_frequency envC3 projN repoN branchN 0 864000 = .ok (5 / 2) := by
  have hdf : get_deployment_frequency env pn rn bn s e =
      .ok (if ((qualifying_builds bs bn s e).map deploy_day).isEmpty then 0
           else value_counts_mean ((qualifying_builds bs bn s e).map deploy_day)) := by
    unfold get_deployment_frequency
    simp only [get_builds_ok env bs s e _ _ _ h]
    rfl
  have hconc : get_deployment_frequency envC3 projN repoN branchN 0 864000 = .ok (5 / 2) := by
    have hb : get_builds envC3 0 864000 statusCompleted (some resultSucceeded)
        (refsHeads branchN) =
        .ok [okBuild 1 3600, okBuild 2 7200, okBuild 3 10800, okBuild 4 90000,
          okBuild 5 93600] := rfl
    have hds : ([okBuild 1 3600, okBuild 2 7200, okBuild 3 10800, okBuild 4 90000,
        okBuild 5 93600]).map (fun b => dayOf b.finishTime) = [0, 0, 0, 1, 1] := by decide
    have h3 : (([0, 0, 0, 1, 1] : List Int)).dedup = [0, 1] := by decide
    rw [get_deployment_frequency, hb]
    simp only [hds, value_counts_mean_eq, h3]
    norm_num
  refine ⟨?_, ?_, ?_, hconc⟩
  · intro hq
    rw [hdf, hq]
    rfl
  · rw [hdf]
    by_cases hq : qualifying_builds bs bn s e = []
    · rw [hq]
      rfl
    · have hie : ((qualifying_builds bs bn s e).map deploy_day).isEmpty = false := by
        simp [List.isEmpty_iff, hq]
      rw [hie, if_neg hq, spec_mean_eq]
      rfl
  · intro hq
    have hie : ((qualifying_builds bs bn s e).map deploy_day).isEmpty = false := by
      simp [List.isEmpty_iff, hq]
    rw [hdf, hie, value_counts_mean_eq, List.length_map]
    rfl

/-- Witness for claim C3 at the five-build environment. -/
theorem claim_C3_witness :
    get_deployment_frequency envC3 projN repoN branchN 0 864000 = .ok (5 / 2) :=
  (claim_C3 envC3
    [okBuild 1 3600, okBuild 2 7200, okBuild 3 10800, okBuild 4 90000, okBuild 5 93600]
    projN repoN branchN 0 864000 rfl).2.2.2

/-- Claim C4: when the repository id resolves and every per-build change
fetch succeeds, lead time for changes is the median of the flat collection of
per-change values `(build.finish_time - change.commit_time) / 3600` gathered
across all qualifying builds (not averaged per build first), 0 when that
collection is empty; a single build with changes at lead times 1, 2 and 3
hours yields 2. -/
theorem claim_C4 (env : Env) (bs : List BuildRecord) (cf : Nat → List ChangeRecord)
    (rid : Nat) (pn rn bn : String) (s e : Time)
    (h1 : env.builds = .ok bs)
    (h2 : get_repository_id env pn rn = some rid)
    (h3 : ∀ n, env.changesFor n = .ok (cf n)) :
    get_lead_time_for_changes env pn rn bn s e =
      .ok (if (qualifying_builds bs bn s e).flatMap
              (fun b => (cf b.id).filterMap (change_lead_hours b)) = [] then 0
           else median ((qualifying_builds bs bn s e).flatMap
              (fun b => (cf b.id).filterMap (change_lead_hours b)))) ∧
    ((qualifying_builds bs bn s e).flatMap
        (fun b => (cf b.id).filterMap (change_lead_hours b)) = [] →
      get_lead_time_for_changes env pn rn bn s e = .ok 0) ∧
    get_lead_time_for_changes envC4 projN repoN branchN 0 864000 = .ok 2 := by
  have hflat : flat_lead_times env (qualifying_builds bs bn s e) =
      (qualifying_builds bs bn s e).flatMap
        (fun b => (cf b.id).filterMap (change_lead_hours b)) := by
    simp [flat_lead_times, h3, build_lead_times]
  have hlt : get_lead_time_for_changes env pn rn bn s e =
      .ok (if ((qualifying_builds bs bn s e).flatMap
              (fun b => (cf b.id).filterMap (change_lead_hours b))).isEmpty then 0
           else median ((qualifying_builds bs bn s e).flatMap
              (fun b => (cf b.id).filterMap (change_lead_hours b)))) := by
    unfold get_lead_time_for_changes
    simp only [h2, get_builds_qualifying env bs bn s e h1]
    rw [lead_loop_some, List.nil_append, hflat]
  have hconc : get_lead_time_for_changes envC4 projN repoN branchN 0 864000 = .ok 2 := by
    have hrepo : get_repository_id envC4 projN repoN = some 7 := by decide
    have hb : get_builds envC4 0 864000 statusCompleted (some resultSucceeded)
        (refsHeads branchN) = .ok [okBuild 1 36000] := rfl
    have hl : lead_loop envC4 (some 7) [okBuild 1 36000] [] =
        [((36000 - 32400 : Int) : ℚ) / 3600, ((36000 - 28800 : Int) : ℚ) / 3600,
         ((36000 - 25200 : Int) : ℚ) / 3600] := rfl
    rw [get_lead_time_for_changes, hrepo, hb]
    simp only [hl]
    norm_num [median, List.insertionSort, List.orderedInsert]
  refine ⟨?_, ?_, hconc⟩
  · rw [hlt]
    by_cases hF : (qualifying_builds bs bn s e).flatMap
        (fun b => (cf b.id).filterMap (change_lead_hours b)) = []
    · rw [hF]
      rfl
    · have hie : ((qualifying_builds bs bn s e).flatMap
          (fun b => (cf b.id).filterMap (change_lead_hours b))).isEmpty = false := by
        simp [List.isEmpty_iff, hF]
      rw [hie, if_neg hF]
      rfl
  · intro hF
    rw [hlt, hF]
    rfl

/-- Witness for claim C4 at the one-build, three-change environment. -/
theorem claim_C4_witness :
    get_lead_time_for_changes envC4 projN repoN branchN 0 864000 = .ok 2 :=
  (claim_C4 envC4 [okBuild 1 36000]
    (fun n => if n = 1 then [⟨10, some 32400⟩, ⟨11, some 28800⟩, ⟨12, some 25200⟩] else [])
    7 projN repoN branchN 0 864000 rfl (by decide)
    (fun n => by by_cases hn : n = 1 <;> simp [envC4, hn])).2.2

/-- Claim C5: the change failure rate computation is total over completed
branch-matched builds in the window: it returns 0 when there are no such
builds (the division is guarded, no error is possible), and
`failed / total * 100` otherwise, `failed` counting builds with result
"failed"; 3 failed of 10 completed yield 30. -/
theorem claim_C5 (env : Env) (bs : List BuildRecord) (pn rn bn : String) (s e : Time)
    (h : env.builds = .ok bs) :
    (∃ q : ℚ, get_change_failure_rate env pn rn bn s e = .ok q) ∧
    ((cfr_builds bs bn s e).length = 0 → get_change_failure_rate env pn rn bn s e = .ok 0) ∧
    (0 < (cfr_builds bs bn s e).length →
      get_change_failure_rate env pn rn bn s e =
        .ok (((List.countP (fun b => b.result == resultFailed) (cfr_builds bs bn s e) : ℕ) : ℚ) /
             (((cfr_builds bs bn s e).length : ℕ) : ℚ) * 100)) ∧
    get_change_failure_rate envC5 projN repoN branchN 0 864000 = .ok 30 := by
  have hcfr : get_change_failure_rate env pn rn bn s e =
      .ok (if (cfr_builds bs bn s e).length > 0
           then ((((cfr_builds bs bn s e).filter (fun b => b.result == resultFailed)).length : ℕ) : ℚ) /
                (((cfr_builds bs bn s e).length : ℕ) : ℚ) * 100
           else 0) := by
    unfold get_change_failure_rate
    simp only [get_builds_cfr env bs bn s e h]
  have hconc : get_change_failure_rate envC5 projN repoN branchN 0 864000 = .ok 30 := by
    have hb : get_builds envC5 0 864000 statusCompleted none (refsHeads branchN) =
        .ok [doneBuild 1 3600 resultFailed, doneBuild 2 7200 resultFailed,
             doneBuild 3 10800 resultFailed, doneBuild 4 14400 resultSucceeded,
             doneBuild 5 18000 resultSucceeded, doneBuild 6 21600 resultSucceeded,
             doneBuild 7 25200 resultSucceeded, doneBuild 8 28800 resultSucceeded,
             doneBuild 9 32400 resultSucceeded, doneBuild 10 36000 resultSucceeded] := rfl
    have hf : (List.filter (fun b => b.result == resultFailed)
        [doneBuild 1 3600 resultFailed, doneBuild 2 7200 resultFailed,
         doneBuild 3 10800 resultFailed, doneBuild 4 14400 resultSucceeded,
         doneBuild 5 18000 resultSucceeded, doneBuild 6 21600 resultSucceeded,
         doneBuild 7 25200 resultSucceeded, doneBuild 8 28800 resultSucceeded,
         doneBuild 9 32400 resultSucceeded, doneBuild 10 36000 resultSucceeded]).length = 3 := by
      decide
    rw [get_change_failure_rate, hb]
    simp only [hf]
    norm_num
  refine ⟨?_, ?_, ?_, hconc⟩
  · exact ⟨_, hcfr⟩
  · intro h0
    rw [hcfr, h0]
    rfl
  · intro hpos
    rw [hcfr, if_pos hpos, List.countP_eq_length_filter]

/-- Witness for claim C5 at the ten-build environment. -/
theorem claim_C5_witness :
    get_change_failure_rate envC5 projN repoN branchN 0 864000 = .ok 30 :=
  (claim_C5 envC5
    [doneBuild 1 3600 resultFailed, doneBuild 2 7200 resultFailed,
     doneBuild 3 10800 resultFailed, doneBuild 4 14400 resultSucceeded,
     doneBuild 5 18000 resultSucceeded, doneBuild 6 21600 resultSucceeded,
     doneBuild 7 25200 resultSucceeded, doneBuild 8 28800 resultSucceeded,
     doneBuild 9 32400 resultSucceeded, doneBuild 10 36000 resultSucceeded]
    projN repoN branchN 0 864000 rfl).2.2.2

/-- Claim C10: `get_repository_id` compares repository names
case-insensitively: a returned id belongs to a listed repository whose
lowercased name equals the lowercased requested name, and it returns `None`
exactly when no listed repository matches ignoring case. -/
theorem claim_C10 (env : Env) (pn rn : String) :
    (∀ i, get_repository_id env pn rn = some i →
      ∃ repo ∈ env.repositories pn, strLower repo.name = strLower rn ∧ repo.id = i) ∧
    (get_repository_id env pn rn = none ↔
      ∀ repo ∈ env.repositories pn, strLower repo.name ≠ strLower rn) := by
  constructor
  · intro i hi
    unfold get_repository_id at hi
    obtain ⟨repo, hfind, hid⟩ := Option.map_eq_some'.mp hi
    refine ⟨repo, List.mem_of_find?_eq_some hfind, ?_, hid⟩
    have hbeq := List.find?_some hfind
    simpa [beq_iff_eq] using hbeq
  · unfold get_repository_id
    rw [Option.map_eq_none', List.find?_eq_none]
    simp [beq_iff_eq]

/-- Witness for claim C10 at the resolving environment `envR`. -/
theorem claim_C10_witness :
    ∃ repo ∈ envR.repositories projN, strLower repo.name = strLower repoN ∧ repo.id = 7 :=
  (claim_C10 envR projN repoN).1 7 (by decide)

/-- Claim C6: any failure while querying or parsing the incident source — a
failing query call, a failing per-item fetch, or a malformed timestamp on a
selected item — is caught at the reducer boundary and `get_time_to_restore`
returns 0 instead of propagating the exception to its caller. -/
theorem claim_C6 (env : Env) (pn rn bn : String) (s e : Time)
    (h : env.queryFails = true ∨
      ((env.workItems.map (fun w => w.id)).Nodup ∧
        ∃ w ∈ matched_incidents env pn bn s e, raises_in_loop w = true)) :
    get_time_to_restore env pn rn bn s e = 0 :=
  ttr_zero_of_failure env pn rn bn s e h

/-- Witness for claim C6: the query call fails in `envQF`, a per-item fetch
fails in `envC7`; both runs return 0. -/
theorem claim_C6_witness :
    get_time_to_restore envQF projN repoN branchN 0 864000 = 0 ∧
    get_time_to_restore envC7 projN repoN branchN 0 864000 = 0 :=
  ⟨claim_C6 envQF projN repoN branchN 0 864000 (Or.inl rfl),
   claim_C6 envC7 projN repoN branchN 0 864000
     (Or.inr ⟨by decide, wiBad 2 18000, by decide, by decide⟩)⟩

/-- Claim C1 is false on the code: when the builds list call raises, the
exception propagates out of `get_all_metrics` to its caller; no report (and
in particular no 0-valued metric with the other three computed) is
returned. -/
theorem claim_C1_counterexample :
    get_all_metrics envFail projN repoN branchN 30 0 =
      .error (.upstream .unavailable) := rfl

/-- Claim C1 amended: only the time-to-restore reducer's failures are
isolated.  When the builds list call succeeds, `get_all_metrics` returns a
report whose time-to-restore entry is the total reducer value (0 on any of
its internal failures); when the builds list call raises, the exception
reaches the caller of `get_all_metrics`. -/
theorem claim_C1_amended (env : Env) (pn rn bn : String) (db : Int) (now : Time) :
    (∀ bs, env.builds = .ok bs → ∃ rep : MetricsReport,
      get_all_metrics env pn rn bn db now = .ok rep ∧
      rep.time_to_restore =
        get_time_to_restore env pn rn bn (now - db * secondsPerDay) now) ∧
    (∀ er, env.builds = .error er →
      get_all_metrics env pn rn bn db now = .error (.upstream er)) := by
  constructor
  · intro bs hbs
    obtain ⟨x1, h1⟩ := df_ok env bs pn rn bn _ _ hbs
    obtain ⟨x2, h2⟩ := lt_ok env bs pn rn bn _ _ hbs
    obtain ⟨x3, h3⟩ := cfr_ok env bs pn rn bn _ _ hbs
    refine ⟨⟨x1, x2, x3,
      get_time_to_restore env pn rn bn (now - db * secondsPerDay) now⟩, ?_, rfl⟩
    unfold get_all_metrics get_all_metrics_window
    rw [h1, h2, h3]
    rfl
  · intro er her
    unfold get_all_metrics get_all_metrics_window
    rw [df_error env er pn rn bn _ _ her]
    rfl

/-- Witness for the amended claim C1: a run with all calls succeeding and a
run whose builds list call raises. -/
theorem claim_C1_amended_witness :
    (∃ rep : MetricsReport, get_all_metrics envEmpty projN repoN branchN 30 0 = .ok rep ∧
      rep.time_to_restore =
        get_time_to_restore envEmpty projN repoN branchN (0 - 30 * secondsPerDay) 0) ∧
    get_all_metrics envFail projN repoN branchN 30 0 = .error (.upstream .unavailable) :=
  ⟨(claim_C1_amended envEmpty projN repoN branchN 30 0).1 [] rfl,
   (claim_C1_amended envFail projN repoN branchN 30 0).2 .unavailable rfl⟩

/-- Claim C2 is false on the code: `days_back` is not validated; with
`days_back = -1` the computation succeeds with a full report instead of
failing with `InvalidArgument`. -/
theorem claim_C2_counterexample :
    get_all_metrics envEmpty projN repoN branchN (-1) 0 = .ok ⟨0, 0, 0, 0⟩ ∧
    get_all_metrics envEmpty projN repoN branchN (-1) 0 ≠ .error .invalidArgument := by
  have h1 : get_all_metrics envEmpty projN repoN branchN (-1) 0 = .ok ⟨0, 0, 0, 0⟩ := rfl
  refine ⟨h1, ?_⟩
  rw [h1]
  simp

/-- Claim C2 amended: the window is resolved with no validation: for every
`days_back` (negative included) `get_all_metrics` computes at the window
`{start = now - days_back days, end = now}` with `now` obtained once,
`InvalidArgument` is never produced, and a negative `days_back` silently
yields a window whose start lies after `now`. -/
theorem claim_C2_amended (env : Env) (pn rn bn : String) (db : Int) (now : Time) :
    get_all_metrics env pn rn bn db now =
      get_all_metrics_window env pn rn bn (now - db * secondsPerDay) now ∧
    get_all_metrics env pn rn bn db now ≠ .error .invalidArgument ∧
    (db < 0 → now < now - db * secondsPerDay) := by
  refine ⟨rfl, ?_, ?_⟩
  · cases hb : env.builds with
    | error er =>
      unfold get_all_metrics get_all_metrics_window
      rw [df_error env er pn rn bn _ _ hb]
      simp [liftUp]
    | ok bs =>
      obtain ⟨x1, h1⟩ := df_ok env bs pn rn bn _ _ hb
      obtain ⟨x2, h2⟩ := lt_ok env bs pn rn bn _ _ hb
      obtain ⟨x3, h3⟩ := cfr_ok env bs pn rn bn _ _ hb
      unfold get_all_metrics get_all_metrics_window
      rw [h1, h2, h3]
      simp [liftUp]
  · intro hdb
    have h2 : 0 < -(db * secondsPerDay) := by
      rw [← neg_mul]
      exact mul_pos (by linarith) (by norm_num [secondsPerDay])
    linarith

/-- Witness for the amended claim C2 with `days_back = -1`. -/
theorem claim_C2_amended_witness :
    get_all_metrics envEmpty projN repoN branchN (-1) 0 =
      get_all_metrics_window envEmpty projN repoN branchN (0 - (-1) * secondsPerDay) 0 ∧
    get_all_metrics envEmpty projN repoN branchN (-1) 0 ≠ .error .invalidArgument ∧
    (0 : Time) < 0 - (-1) * secondsPerDay := by
  obtain ⟨a, b, c⟩ := claim_C2_amended envEmpty projN repoN branchN (-1) 0
  exact ⟨a, b, c (by norm_num)⟩

/-- Claim C7 is false on the code for the time-to-restore reducer: in `envC7`
one incident restores in 5 hours and the other's per-item fetch fails; the
code returns 0 for the whole metric, while the skip semantics the claim
describes (the failing item degraded alone, the rest contributing) would
return 5. -/
theorem claim_C7_counterexample :
    get_time_to_restore envC7 projN repoN branchN 0 864000 = 0 ∧
    get_time_to_restore_skip envC7 projN repoN branchN 0 864000 = 5 ∧
    (0 : ℚ) ≠ 5 := by
  refine ⟨rfl, ?_, by norm_num⟩
  have hs : get_time_to_restore_skip envC7 projN repoN branchN 0 864000 =
      median [((18000 - 0 : Int) : ℚ) / 3600] := rfl
  rw [hs]
  norm_num [median, List.insertionSort, List.orderedInsert]

/-- Claim C7 amended: a per-item upstream failure is caught and degrades only
that item in the lead-time reducer; in the time-to-restore reducer a per-item
failure is caught at the reducer boundary and zeroes the whole metric (the
remaining items do not contribute); a failure of the initial list call
propagates out of the deployment-frequency, lead-time and change-failure-rate
reducers but is swallowed (0) by time to restore. -/
theorem claim_C7_amended (envA envB : Env) (bsA : List BuildRecord) (ridA : Nat)
    (erB : FetchError) (pn rn bn : String) (s e : Time)
    (h1 : envA.builds = .ok bsA)
    (h2 : get_repository_id envA pn rn = some ridA)
    (h3 : (envA.workItems.map (fun w => w.id)).Nodup)
    (h4 : ∃ w ∈ matched_incidents envA pn bn s e, raises_in_loop w = true)
    (h5 : envB.builds = .error erB)
    (h6 : envB.queryFails = true) :
    get_lead_time_for_changes envA pn rn bn s e =
      .ok (if (flat_lead_times envA (qualifying_builds bsA bn s e)).isEmpty then 0
           else median (flat_lead_times envA (qualifying_builds bsA bn s e))) ∧
    get_time_to_restore envA pn rn bn s e = 0 ∧
    get_deployment_frequency envB pn rn bn s e = .error erB ∧
    get_lead_time_for_changes envB pn rn bn s e = .error erB ∧
    get_change_failure_rate envB pn rn bn s e = .error erB ∧
    get_time_to_restore envB pn rn bn s e = 0 := by
  refine ⟨?_, ttr_zero_of_failure envA pn rn bn s e (Or.inr ⟨h3, h4⟩),
    df_error envB erB pn rn bn s e h5, lt_error envB erB pn rn bn s e h5,
    cfr_error envB erB pn rn bn s e h5,
    ttr_zero_of_failure envB pn rn bn s e (Or.inl h6)⟩
  unfold get_lead_time_for_changes
  simp only [h2, get_builds_qualifying envA bsA bn s e h1]
  rw [lead_loop_some, List.nil_append]

/-- Witness for the amended claim C7 at `envC7a` (per-item failures) and
`envFail` (failing list calls). -/
theorem claim_C7_amended_witness :
    get_lead_time_for_changes envC7a projN repoN branchN 0 864000 =
      .ok (if (flat_lead_times envC7a
              (qualifying_builds [okBuild 1 36000, okBuild 2 39600] branchN 0 864000)).isEmpty
           then 0
           else median (flat_lead_times envC7a
              (qualifying_builds [okBuild 1 36000, okBuild 2 39600] branchN 0 864000))) ∧
    get_time_to_restore envC7a projN repoN branchN 0 864000 = 0 ∧
    get_deployment_frequency envFail projN repoN branchN 0 864000 = .error .unavailable ∧
    get_lead_time_for_changes envFail projN repoN branchN 0 864000 = .error .unavailable ∧
    get_change_failure_rate envFail projN repoN branchN 0 864000 = .error .unavailable ∧
    get_time_to_restore envFail projN repoN branchN 0 864000 = 0 :=
  claim_C7_amended envC7a envFail [okBuild 1 36000, okBuild 2 39600] 7 .unavailable
    projN repoN branchN 0 864000 rfl (by decide) (by decide)
    ⟨wiBad 2 18000, by decide, by decide⟩ rfl rfl

/-- Claim C8 is false on the code: the WIQL filter compares
`%Y-%m-%d`-formatted bounds inclusively, so an incident whose changed time is
exactly the window end (2592000, i.e. `>= end`) is selected and its 5-hour
restoration time becomes the metric, instead of being excluded as the
half-open `[start, end)` reading requires. -/
theorem claim_C8_counterexample :
    wiC8.changedTime = 2592000 ∧
    wiql_matches projN branchN (dayOf 0) (dayOf 2592000) wiC8 = true ∧
    wiC8 ∈ matched_incidents envC8 projN branchN 0 2592000 ∧
    get_time_to_restore envC8 projN repoN branchN 0 2592000 = 5 := by
  refine ⟨rfl, by decide, by decide, ?_⟩
  have h : get_time_to_restore envC8 projN repoN branchN 0 2592000 =
      median [((2592000 - 2574000 : Int) : ℚ) / 3600] := rfl
  rw [h]
  norm_num [median, List.insertionSort, List.orderedInsert]

/-- Claim C8 amended: the time-to-restore reducer selects incidents at
calendar-day granularity with bounds inclusive on both sides: an incident
qualifies exactly when it belongs to the project as a closed Bug tagged with
the branch and the calendar day of its changed time lies between the day of
`start` and the day of `end` inclusive; incidents changed after `end`'s
calendar day, or before `start`'s, are excluded. -/
theorem claim_C8_amended (env : Env) (pn bn : String) (s e : Time) (w : StoredWorkItem) :
    (w ∈ matched_incidents env pn bn s e ↔
      (w ∈ env.workItems ∧ w.project = pn ∧ w.itemType = wiBug ∧ w.state = wiClosed ∧
       dayOf s ≤ dayOf w.changedTime ∧ dayOf w.changedTime ≤ dayOf e ∧
       strContains w.tags bn = true)) ∧
    (dayOf e < dayOf w.changedTime → w ∉ matched_incidents env pn bn s e) ∧
    (dayOf w.changedTime < dayOf s → w ∉ matched_incidents env pn bn s e) := by
  have hiff : w ∈ matched_incidents env pn bn s e ↔
      (w ∈ env.workItems ∧ w.project = pn ∧ w.itemType = wiBug ∧ w.state = wiClosed ∧
       dayOf s ≤ dayOf w.changedTime ∧ dayOf w.changedTime ≤ dayOf e ∧
       strContains w.tags bn = true) := by
    unfold matched_incidents wiql_matches
    rw [List.mem_filter]
    simp [beq_iff_eq, and_assoc]
  refine ⟨hiff, ?_, ?_⟩
  · intro hgt hmem
    obtain ⟨-, -, -, -, -, h6, -⟩ := hiff.mp hmem
    exact absurd h6 (not_le.mpr hgt)
  · intro hlt hmem
    obtain ⟨-, -, -, -, h5, -, -⟩ := hiff.mp hmem
    exact absurd h5 (not_le.mpr hlt)

/-- Witness for the amended claim C8: the day-31 incident is excluded from
the day-0..30 window. -/
theorem claim_C8_amended_witness :
    wiC8out ∉ matched_incidents envC8 projN branchN 0 2592000 :=
  (claim_C8_amended envC8 projN branchN 0 2592000 wiC8out).2.1 (by decide)

/-- Claim C9 is false on the code: two runs differing only in the repository
list (so that repository-id resolution succeeds in one and returns `None` in
the other) give different lead-time values: 2 hours versus 0. -/
theorem claim_C9_counterexample :
    get_lead_time_for_changes envR projN repoN branchN 0 864000 = .ok 2 ∧
    get_lead_time_for_changes envRn projN repoN branchN 0 864000 = .ok 0 ∧
    get_lead_time_for_changes envR projN repoN branchN 0 864000 ≠
      get_lead_time_for_changes envRn projN repoN branchN 0 864000 := by
  have h1 : get_lead_time_for_changes envR projN repoN branchN 0 864000 =
      .ok (median [((36000 - 28800 : Int) : ℚ) / 3600]) := rfl
  have h2 : get_lead_time_for_changes envRn projN repoN branchN 0 864000 = .ok 0 := rfl
  have h3 : median [((36000 - 28800 : Int) : ℚ) / 3600] = 2 := by
    norm_num [median, List.insertionSort, List.orderedInsert]
  refine ⟨by rw [h1, h3], h2, ?_⟩
  rw [h1, h2, h3]
  simp

/-- Claim C9 amended: the resolved repository id is irrelevant to deployment
frequency, change failure rate and time to restore (null or not, those three
metrics are unchanged when only the repository list differs), but lead time
for changes degenerates to 0 whenever resolution returns `None`, so its
output can depend on the resolution result. -/
theorem claim_C9_amended (env : Env) (rs : String → List Repo) (pn rn bn : String)
    (s e : Time) (bs : List BuildRecord)
    (h1 : env.builds = .ok bs)
    (h2 : get_repository_id env pn rn = none) :
    get_deployment_frequency { env with repositories := rs } pn rn bn s e =
      get_deployment_frequency env pn rn bn s e ∧
    get_change_failure_rate { env with repositories := rs } pn rn bn s e =
      get_change_failure_rate env pn rn bn s e ∧
    get_time_to_restore { env with repositories := rs } pn rn bn s e =
      get_time_to_restore env pn rn bn s e ∧
    get_lead_time_for_changes env pn rn bn s e = .ok 0 := by
  refine ⟨rfl, rfl, ttr_ignores_repositories env rs pn rn bn s e, ?_⟩
  unfold get_lead_time_for_changes
  simp only [h2, get_builds_qualifying env bs bn s e h1]
  rw [lead_loop_none]
  rfl

/-- Witness for the amended claim C9 at `envRn` (empty repository list). -/
theorem claim_C9_amended_witness :
    get_deployment_frequency { envRn with repositories := fun _ => [⟨repoN, 7⟩] }
        projN repoN branchN 0 864000 =
      get_deployment_frequency envRn projN repoN branchN 0 864000 ∧
    get_change_failure_rate { envRn with repositories := fun _ => [⟨repoN, 7⟩] }
        projN repoN branchN 0 864000 =
      get_change_failure_rate envRn projN repoN branchN 0 864000 ∧
    get_time_to_restore { envRn with repositories := fun _ => [⟨repoN, 7⟩] }
        projN repoN branchN 0 864000 =
      get_time_to_restore envRn projN repoN branchN 0 864000 ∧
    get_lead_time_for_changes envRn projN repoN branchN 0 864000 = .ok 0 :=
  claim_C9_amended envRn (fun _ => [⟨repoN, 7⟩]) projN repoN branchN 0 864000
    [okBuild 1 36000] rfl (by decide)

end Dora
